import Mathlib

/-
Shallow embedding of the credential-lifecycle and event-formatting code of
the GoogleCalendarIntegration repository.

Embedded source functions:
  * GoogleCalendarAPI._authenticate          (calendar_api.py, lines 38-76)
  * authenticate_google_calendar             (get_calendar_events.py, lines 22-57)
  * LambdaGoogleCalendarAPI._get_token_from_parameter_store
                                             (lambda-package/lambda_calendar_api.py, lines 42-61)
  * LambdaGoogleCalendarAPI._save_token_to_parameter_store
                                             (lambda-package/lambda_calendar_api.py, lines 63-87)
  * LambdaGoogleCalendarAPI._authenticate    (lambda-package/lambda_calendar_api.py, lines 89-143)
  * lambda_handler                           (lambda_function.py, lines 22-102)
  * GoogleCalendarAPI.format_events          (calendar_api.py, lines 121-182; the
    lambda-package copy, lines 188-249, is textually identical)

Modelling conventions: the external world (token file contents, parameter
store contents, the provider token endpoint, the interactive consent flow)
is an explicit environment record; the side effects a run performs are
collected as an explicit trace of events; Python exceptions become an
Except-style error result; google-auth credential validity
(`creds.valid` = token present and not expired) becomes `now < expiry`
on an integer clock.
-/

namespace GCal

/-- A stored OAuth token record, as serialized in token.json / the SSM
parameter: access token, optional refresh token, absolute expiry
timestamp, granted scopes. -/
structure TokenRecord where
  access_token : String
  refresh_token : Option String
  expiry : Int
  scope_set : List String
deriving Repr, DecidableEq

/-- The `SCOPES` constant from the source modules (identical in all three). -/
def SCOPES : List String := ["https://www.googleapis.com/auth/calendar.readonly"]

/-- The scope-sufficiency test the spec requires of a validator: granted
scopes form a superset of the required scopes.  The source never performs
this comparison; the definition exists to state what the code omits. -/
def scopesSufficient (granted required : List String) : Bool :=
  required.all (fun s => granted.contains s)

/-- Observable side effects of one authentication run. -/
inductive Ev where
  | remoteRead                    -- ssm.get_parameter
  | fileRead                      -- open(token_path).read()
  | refreshCall                   -- creds.refresh(Request()) : network call
  | grantCall                     -- flow.run_local_server(port=0) : interactive grant
  | fileWrite (r : TokenRecord)   -- open(token_path, w).write(...)
  | remoteWrite (r : TokenRecord) -- ssm.put_parameter attempt
deriving Repr, DecidableEq

/-- Uncaught Python exceptions of the embedded authentication paths. -/
inductive AuthError where
  | credentialsFileNotFound   -- FileNotFoundError raised when credentials.json is absent
  | refreshError              -- exception propagating out of creds.refresh (e.g. invalid_grant)
  | grantError                -- exception propagating out of flow.run_local_server
  | tokenParseError           -- exception from json.loads / from_authorized_user_info
  | lambdaTokenExpired        -- ValueError: token expired and not refreshable in Lambda
  | lambdaNoCreds             -- ValueError: no valid credentials found
deriving Repr, DecidableEq

/-- The user-facing message attached to each raised error in the source. -/
def errorMessage : AuthError → String
  | .credentialsFileNotFound =>
      "credentials.json file not found. Please download it from Google Cloud Console and save it in the current directory."
  | .refreshError => "invalid_grant"
  | .grantError => "authorization flow failed"
  | .tokenParseError => "Expecting value: line 1 column 1 (char 0)"
  | .lambdaTokenExpired =>
      "Token is expired and can\x27t be refreshed in Lambda environment. Please generate a new token using the local authentication flow."
  | .lambdaNoCreds =>
      "No valid credentials found. Please run the authentication flow locally first."

/-- Environment of one interactive (local) authentication run.
`tokenFile`: `none` = file absent, `some none` = file present but
unparsable, `some (some r)` = file holds record `r`.  `refreshResult` and
`grantResult` are the outcomes the token endpoint / consent flow would
produce if called. -/
structure LocalEnv where
  now : Int
  tokenFile : Option (Option TokenRecord)
  credentialsFileExists : Bool
  refreshResult : Except Unit TokenRecord
  grantResult : Except Unit TokenRecord
deriving Repr

/-- Result of one interactive authentication run: the returned (or raised)
value, the effect trace in order, and the final token-file state. -/
structure AuthOutcome where
  result : Except AuthError TokenRecord
  trace : List Ev
  tokenFile : Option (Option TokenRecord)
deriving Repr

/-- Token-file load of GoogleCalendarAPI._authenticate (calendar_api.py
lines 47-53): a parse failure is caught, printed, and leaves creds None. -/
def loadLocalToken : Option (Option TokenRecord) → Option TokenRecord
  | none => none
  | some none => none
  | some (some r) => some r

/-- Events of the token-file load: the file is read iff it exists. -/
def localLoadTrace : Option (Option TokenRecord) → List Ev
  | none => []
  | some _ => [Ev.fileRead]

/-- The grant branch shared by calendar_api.py (lines 59-73) and
get_calendar_events.py (lines 40-54): check credentials.json exists, run
the installed-app flow, save the new token to the token file. -/
def grantPath (env : LocalEnv) (tr : List Ev) : AuthOutcome :=
  if env.credentialsFileExists then
    match env.grantResult with
    | .ok g =>
        { result := .ok g
          trace := tr ++ [Ev.grantCall, Ev.fileWrite g]
          tokenFile := some (some g) }
    | .error _ =>
        { result := .error .grantError
          trace := tr ++ [Ev.grantCall]
          tokenFile := env.tokenFile }
  else
    { result := .error .credentialsFileNotFound, trace := tr, tokenFile := env.tokenFile }

/-- GoogleCalendarAPI._authenticate (calendar_api.py lines 38-76).
Branch structure of the source: if creds exist and are valid, use them
unchanged; else if creds exist, are expired and carry a refresh token,
refresh (an exception from refresh propagates) and save; else run the
interactive grant and save. -/
def authenticateLocal (env : LocalEnv) : AuthOutcome :=
  let tr := localLoadTrace env.tokenFile
  match loadLocalToken env.tokenFile with
  | some c =>
    if env.now < c.expiry then
      { result := .ok c, trace := tr, tokenFile := env.tokenFile }
    else
      match c.refresh_token with
      | some _ =>
        match env.refreshResult with
        | .ok nr =>
            { result := .ok nr
              trace := tr ++ [Ev.refreshCall, Ev.fileWrite nr]
              tokenFile := some (some nr) }
        | .error _ =>
            { result := .error .refreshError
              trace := tr ++ [Ev.refreshCall]
              tokenFile := env.tokenFile }
      | none => grantPath env tr
  | none => grantPath env tr

/-- authenticate_google_calendar (get_calendar_events.py lines 22-57):
identical to GoogleCalendarAPI._authenticate except that the token-file
load (lines 32-34) has no try/except, so a parse failure propagates. -/
def authenticateScript (env : LocalEnv) : AuthOutcome :=
  match env.tokenFile with
  | some none =>
      { result := .error .tokenParseError, trace := [Ev.fileRead], tokenFile := env.tokenFile }
  | some (some c) =>
    if env.now < c.expiry then
      { result := .ok c, trace := [Ev.fileRead], tokenFile := env.tokenFile }
    else
      match c.refresh_token with
      | some _ =>
        match env.refreshResult with
        | .ok nr =>
            { result := .ok nr
              trace := [Ev.fileRead, Ev.refreshCall, Ev.fileWrite nr]
              tokenFile := some (some nr) }
        | .error _ =>
            { result := .error .refreshError
              trace := [Ev.fileRead, Ev.refreshCall]
              tokenFile := env.tokenFile }
      | none => grantPath env [Ev.fileRead]
  | none => grantPath env []

/-- The five validator classes of the spec (section 4.2). -/
inductive Classification where
  | Absent | Valid | Refreshable | Terminal | ScopeMismatch
deriving Repr, DecidableEq

/-- The classification the source code actually computes, read off the
branch structure of the _authenticate functions: `creds.valid` is a pure
time check, `creds.expired and creds.refresh_token` selects refresh, and
granted scopes are never compared with required scopes. -/
def classifyCode (now : Int) : Option TokenRecord → Classification
  | none => .Absent
  | some c =>
    if now < c.expiry then .Valid
    else if c.refresh_token.isSome then .Refreshable
    else .Terminal

/-- Environment of one Lambda authentication run.  `remoteValue`:
`none` = ssm.get_parameter raises (missing parameter / access denied),
`some none` = a value is returned but does not parse as a credential,
`some (some r)` = the parameter holds record `r`.  `remoteSaveOk` is
whether ssm.put_parameter would succeed. -/
structure LambdaEnv where
  now : Int
  parameterStoreTokenName : Option String
  remoteValue : Option (Option TokenRecord)
  tokenFile : Option (Option TokenRecord)
  refreshResult : Except Unit TokenRecord
  remoteSaveOk : Bool
deriving Repr

/-- Result of one Lambda authentication run, including the final state of
both persistence backends. -/
structure LambdaOutcome where
  result : Except AuthError TokenRecord
  trace : List Ev
  tokenFile : Option (Option TokenRecord)
  remoteStore : Option (Option TokenRecord)
deriving Repr

/-- Credential produced by _get_token_from_parameter_store followed by the
parse at lambda_calendar_api.py lines 100-105: None when the parameter
name is not configured, the fetch raises (caught, logged, returns None),
or the fetched value does not parse (caught, logged). -/
def lambdaRemoteCreds (env : LambdaEnv) : Option TokenRecord :=
  match env.parameterStoreTokenName with
  | none => none
  | some _ =>
    match env.remoteValue with
    | some (some r) => some r
    | _ => none

/-- Credential held after both load steps of LambdaGoogleCalendarAPI.
_authenticate (lines 98-114): the local file is consulted only when the
parameter store produced nothing usable and the file exists; a file parse
failure is caught and logged. -/
def lambdaLoadedCreds (env : LambdaEnv) : Option TokenRecord :=
  match lambdaRemoteCreds env with
  | some r => some r
  | none =>
    match env.tokenFile with
    | some (some r) => some r
    | _ => none

/-- Events of the two load steps, in execution order: the parameter store
is queried first whenever a parameter name is configured; the file is read
only afterwards, and only when the store yielded nothing usable. -/
def lambdaLoadTrace (env : LambdaEnv) : List Ev :=
  (match env.parameterStoreTokenName with
   | none => []
   | some _ => [Ev.remoteRead]) ++
  (match lambdaRemoteCreds env with
   | some _ => []
   | none =>
     match env.tokenFile with
     | none => []
     | some _ => [Ev.fileRead])

/-- _save_token_to_parameter_store (lambda_calendar_api.py lines 63-87):
no-op returning False when no parameter name is configured; otherwise a
put_parameter attempt whose failure is caught, logged, and reported as
False.  Returns (success flag, events, resulting store state). -/
def saveTokenToParameterStore (env : LambdaEnv) (nr : TokenRecord) :
    Bool × List Ev × Option (Option TokenRecord) :=
  match env.parameterStoreTokenName with
  | none => (false, [], env.remoteValue)
  | some _ =>
    if env.remoteSaveOk then (true, [Ev.remoteWrite nr], some (some nr))
    else (false, [Ev.remoteWrite nr], env.remoteValue)

/-- LambdaGoogleCalendarAPI._authenticate (lambda_calendar_api.py lines
89-143).  After the two load steps: a valid credential is used unchanged;
an expired credential with a refresh token is refreshed (an exception
propagates), written to the token file, then written to the parameter
store with the success flag ignored; an expired credential without a
refresh token raises ValueError; no credential at all raises ValueError.
No interactive grant flow exists in this module. -/
def authenticateLambda (env : LambdaEnv) : LambdaOutcome :=
  let tr := lambdaLoadTrace env
  match lambdaLoadedCreds env with
  | some c =>
    if env.now < c.expiry then
      { result := .ok c, trace := tr
        tokenFile := env.tokenFile, remoteStore := env.remoteValue }
    else
      match c.refresh_token with
      | some _ =>
        match env.refreshResult with
        | .ok nr =>
          let sv := saveTokenToParameterStore env nr
          { result := .ok nr
            trace := tr ++ [Ev.refreshCall, Ev.fileWrite nr] ++ sv.2.1
            tokenFile := some (some nr)
            remoteStore := sv.2.2 }
        | .error _ =>
          { result := .error .refreshError, trace := tr ++ [Ev.refreshCall]
            tokenFile := env.tokenFile, remoteStore := env.remoteValue }
      | none =>
        { result := .error .lambdaTokenExpired, trace := tr
          tokenFile := env.tokenFile, remoteStore := env.remoteValue }
  | none =>
    { result := .error .lambdaNoCreds, trace := tr
      tokenFile := env.tokenFile, remoteStore := env.remoteValue }

/-- True when the credential loadable in `env` is usable as-is or
refreshable; when false, the Lambda run can only raise. -/
def hasUsableOrRefreshable (env : LambdaEnv) : Bool :=
  match lambdaLoadedCreds env with
  | none => false
  | some c => decide (env.now < c.expiry) || c.refresh_token.isSome

/-! ### lambda_function.lambda_handler -/

/-- The `queryStringParameters` member of the Lambda event:
absent (so `event.get` returns the `\x7b\x7d` default), explicitly null
(API-Gateway style, on which `.get` raises AttributeError), or a dict with
an optional `days` entry. -/
inductive QueryParams where
  | missing
  | null
  | withDays (s : Option String)
deriving Repr, DecidableEq

/-- Environment of one lambda_handler invocation.
`googleCredentialsJson` is the raw GOOGLE_CREDENTIALS_JSON variable
(`some ""` is falsy in the source check); `pipeline` collapses every step
after the credential check (base64 decode, file writes,
LambdaGoogleCalendarAPI construction, get_events, format_events,
analyze_events) into its outcome: the analysis payload, or the message of
the first exception raised; `eventsCount` is the formatted event count of
a successful run. -/
structure HandlerEnv where
  query : QueryParams
  googleCredentialsJson : Option String
  pipeline : Except String String
  eventsCount : Int
deriving Repr

/-- An API-Gateway style response value. -/
structure HttpResponse where
  statusCode : Int
  body : String
deriving Repr, DecidableEq

/-- Body produced by the except-branch of lambda_handler (line 97-102):
json.dumps of an error object carrying the exception message. -/
def errorBody (msg : String) : String :=
  "\x7b\"error\": \"An error occurred: " ++ msg ++ "\"\x7d"

/-- Body of the 400 response for unconfigured credentials (lines 39-44). -/
def credsNotConfiguredBody : String :=
  "\x7b\"error\": \"Google credentials not configured in environment variables\"\x7d"

/-- Body of the 200 response (lines 80-90). -/
def successBody (eventsCount daysBack : Int) (analysis : String) : String :=
  "\x7b\"events_count\": " ++ toString eventsCount ++
  ", \"days_analyzed\": " ++ toString daysBack ++
  ", \"analysis\": " ++ analysis ++ "\x7d"

/-- The expression `int(event.get('queryStringParameters', {}).get('days', DEFAULT_DAYS))`
(lambda_function.py line 35): the missing key and the missing entry fall
back to DEFAULT_DAYS = 7; a null member raises AttributeError; a
non-numeric value raises ValueError from int(). -/
def parseDays : QueryParams → Except String Int
  | .missing => .ok 7
  | .null => .error "AttributeError: NoneType object has no attribute get"
  | .withDays none => .ok 7
  | .withDays (some s) =>
    match s.toInt? with
    | some n => .ok n
    | none => .error ("invalid literal for int() with base 10: " ++ s)

/-- The check `not os.environ.get('GOOGLE_CREDENTIALS_JSON')` (line 38): unset
and empty are both falsy. -/
def credsConfigured : Option String → Bool
  | none => false
  | some s => !(s == "")

/-- lambda_handler (lambda_function.py lines 22-102): the whole body runs
inside one try/except Exception; the 400 check follows the days parse;
every caught exception is converted into a 500 response carrying the
message. -/
def lambda_handler (env : HandlerEnv) : HttpResponse :=
  match parseDays env.query with
  | .error m => { statusCode := 500, body := errorBody m }
  | .ok days =>
    if credsConfigured env.googleCredentialsJson then
      match env.pipeline with
      | .error m => { statusCode := 500, body := errorBody m }
      | .ok analysis =>
          { statusCode := 200, body := successBody env.eventsCount days analysis }
    else
      { statusCode := 400, body := credsNotConfiguredBody }

/-- The message of the exception a lambda_handler invocation raises
internally, when there is one. -/
def handlerRaised (env : HandlerEnv) : Option String :=
  match parseDays env.query with
  | .error m => some m
  | .ok _ =>
    if credsConfigured env.googleCredentialsJson then
      match env.pipeline with
      | .error m => some m
      | .ok _ => none
    else none

/-! ### format_events -/

/-- A value selected from an event time member: a parsed dateTime
timestamp or a parsed all-day date (a day number). -/
inductive TimeVal where
  | dt (t : Int)
  | d (day : Int)
deriving Repr, DecidableEq, Inhabited

/-- An event `start`/`end` member: a dict with optional `dateTime`
and optional `date` entries, pre-parsed to integers. -/
structure EventTime where
  dateTime : Option Int
  date : Option Int
deriving Repr, DecidableEq

/-- A raw calendar event as format_events consumes it (the members the
function touches; `event[\x27start\x27]` and `event[\x27end\x27]` are
required by the subscripts at lines 143-144). -/
structure GEvent where
  id : String
  summary : Option String
  start : EventTime
  endTime : EventTime
deriving Repr, DecidableEq

/-- One formatted event record. -/
structure FEvent where
  id : String
  summary : String
  start : TimeVal
  endTime : TimeVal
  is_all_day : Bool
deriving Repr, DecidableEq, Inhabited

/-- The selection `m.get('dateTime', m.get('date'))` (lines 143-144):
prefer the dateTime entry, fall back to the date entry. -/
def sel (e : EventTime) : Option TimeVal :=
  match e.dateTime with
  | some t => some (.dt t)
  | none =>
    match e.date with
    | some day => some (.d day)
    | none => none

/-- The test `'date' in event['start'] and 'dateTime' not in
event['start']` (line 147). -/
def isAllDay (ev : GEvent) : Bool :=
  ev.start.date.isSome && ev.start.dateTime.isNone

/-- The loop body of format_events (lines 135-180) on one event, details
omitted (include_details only adds extra members).  `none` models an
exception propagating out of the loop: strptime / dateutil parse applied
to a missing value, or strptime(\x27%Y-%m-%d\x27) applied to a dateTime
string in the all-day branch.  In the all-day branch the end date is
moved one day earlier (line 154). -/
def formatOne (ev : GEvent) : Option FEvent :=
  match sel ev.start, sel ev.endTime with
  | some s, some e =>
    if isAllDay ev then
      match s, e with
      | .d sd, .d ed =>
          some { id := ev.id, summary := ev.summary.getD "No Title"
                 start := .d sd, endTime := .d (ed - 1), is_all_day := true }
      | _, _ => none
    else
      some { id := ev.id, summary := ev.summary.getD "No Title"
             start := s, endTime := e, is_all_day := false }
  | _, _ => none

/-- format_events (calendar_api.py lines 121-182): the loop appends one
formatted record per event, in order; an exception on any event aborts
the whole call. -/
def format_events : List GEvent → Option (List FEvent)
  | [] => some []
  | ev :: rest =>
    match formatOne ev with
    | none => none
    | some f =>
      match format_events rest with
      | none => none
      | some fs => some (f :: fs)

/-- Total version of the loop body used to state per-index results;
agrees with `formatOne` on every event on which the loop body does not
raise. -/
def fmtTotal (ev : GEvent) : FEvent :=
  (formatOne ev).getD default

/-- Events on which the loop body of format_events does not raise: both
time members select a value, and an all-day event has no dateTime entry
in its end member. -/
def evWellFormed (ev : GEvent) : Bool :=
  (sel ev.start).isSome && (sel ev.endTime).isSome &&
    (!(isAllDay ev) || (ev.endTime.dateTime.isNone && ev.endTime.date.isSome))

/-! ### Event-kind predicates used to state trace properties -/

/-- Event is a read of one of the two token stores. -/
def isRead : Ev → Bool
  | .remoteRead => true
  | .fileRead => true
  | _ => false

/-- Event is a write to one of the two token stores. -/
def isWrite : Ev → Bool
  | .fileWrite _ => true
  | .remoteWrite _ => true
  | _ => false

/-- Event is a call of the refresh flow. -/
def isRefresh : Ev → Bool
  | .refreshCall => true
  | _ => false

/-- Event is a call of the interactive grant flow. -/
def isGrant : Ev → Bool
  | .grantCall => true
  | _ => false

/-! ### Concrete fixtures used by counterexamples and witnesses -/

/-- A record that is time-valid but whose granted scopes are a strict
subset of the required SCOPES. -/
def recScopeless : TokenRecord :=
  { access_token := "at0", refresh_token := none, expiry := 100, scope_set := [] }

/-- A time-valid, fully-scoped record. -/
def recValid : TokenRecord :=
  { access_token := "at1", refresh_token := some "rt1", expiry := 100, scope_set := SCOPES }

/-- An expired record carrying a refresh token. -/
def recExpired : TokenRecord :=
  { access_token := "old", refresh_token := some "rt1", expiry := 5, scope_set := SCOPES }

/-- The record a successful refresh produces. -/
def recNew : TokenRecord :=
  { access_token := "new", refresh_token := some "rt1", expiry := 100, scope_set := SCOPES }

/-- The record a successful interactive grant produces. -/
def recGranted : TokenRecord :=
  { access_token := "granted", refresh_token := some "rt2", expiry := 200, scope_set := SCOPES }

/-- Local run holding the scope-deficient record. -/
def envScopeL : LocalEnv :=
  { now := 0, tokenFile := some (some recScopeless), credentialsFileExists := true,
    refreshResult := .error (), grantResult := .error () }

/-- Lambda run holding the scope-deficient record in the token file. -/
def envScopeM : LambdaEnv :=
  { now := 0, parameterStoreTokenName := none, remoteValue := none,
    tokenFile := some (some recScopeless), refreshResult := .error (), remoteSaveOk := true }

/-- Local run: expired stored record, revoked refresh token, interactive
capability present and able to succeed. -/
def envRevoked : LocalEnv :=
  { now := 10, tokenFile := some (some recExpired), credentialsFileExists := true,
    refreshResult := .error (), grantResult := .ok recGranted }

/-- Local run holding a valid record. -/
def envValid : LocalEnv :=
  { now := 10, tokenFile := some (some recValid), credentialsFileExists := false,
    refreshResult := .error (), grantResult := .error () }

/-- Local run: expired stored record, refresh would succeed. -/
def envRefresh : LocalEnv :=
  { now := 10, tokenFile := some (some recExpired), credentialsFileExists := false,
    refreshResult := .ok recNew, grantResult := .error () }

/-- Lambda run with no stored material anywhere. -/
def envEmptyLambda : LambdaEnv :=
  { now := 10, parameterStoreTokenName := none, remoteValue := none, tokenFile := none,
    refreshResult := .error (), remoteSaveOk := true }

/-- Lambda run: the remote store holds an expired refreshable record,
the refresh succeeds, and the remote save fails with a conflict. -/
def envConflict : LambdaEnv :=
  { now := 10, parameterStoreTokenName := some "google-calendar-token",
    remoteValue := some (some recExpired), tokenFile := none,
    refreshResult := .ok recNew, remoteSaveOk := false }

/-- Lambda run: remote store configured but empty, valid record in the
local file. -/
def envRemoteAbsent : LambdaEnv :=
  { now := 10, parameterStoreTokenName := some "google-calendar-token",
    remoteValue := none, tokenFile := some (some recValid),
    refreshResult := .error (), remoteSaveOk := true }

/-- Local run whose token file exists but does not parse. -/
def envMalformed : LocalEnv :=
  { now := 0, tokenFile := some none, credentialsFileExists := true,
    refreshResult := .error (), grantResult := .ok recGranted }

/-- Lambda run whose token file exists but does not parse. -/
def lenvMalformed : LambdaEnv :=
  { now := 0, parameterStoreTokenName := none, remoteValue := none,
    tokenFile := some none, refreshResult := .error (), remoteSaveOk := true }

/-- Handler invocation whose event carries a null queryStringParameters
member, on which the source raises AttributeError inside the try block. -/
def envHandlerErr : HandlerEnv :=
  { query := QueryParams.null, googleCredentialsJson := some "abc",
    pipeline := .ok "\x7b\x7d", eventsCount := 0 }

/-- An all-day event: date-only start, provider end date one day after
the last day. -/
def evAllDay : GEvent :=
  { id := "e1", summary := some "Trip",
    start := { dateTime := none, date := some 100 },
    endTime := { dateTime := none, date := some 102 } }

/-- A timed event. -/
def evTimed : GEvent :=
  { id := "e2", summary := none,
    start := { dateTime := some 500, date := none },
    endTime := { dateTime := some 560, date := none } }

/-! ## Theorems -/

/-- C1: the source validator is scope-blind.  `recScopeless` is time-valid
at now = 0 and its granted scope set is a strict subset of the required
SCOPES (it is contained in SCOPES and is not a superset of it), yet both
_authenticate variants classify it Valid and return it for use unchanged,
with no re-grant: the code contradicts the validator contract the spec
states for this situation (`ScopeMismatch`, never `Valid`). -/
theorem c1_scope_subset_reused_as_valid :
    scopesSufficient recScopeless.scope_set SCOPES = false ∧
    scopesSufficient SCOPES recScopeless.scope_set = true ∧
    (0 : Int) < recScopeless.expiry ∧
    classifyCode 0 (some recScopeless) = Classification.Valid ∧
    (authenticateLocal envScopeL).result = Except.ok recScopeless ∧
    (authenticateLambda envScopeM).result = Except.ok recScopeless ∧
    (authenticateLocal envScopeL).trace.countP isGrant = 0 ∧
    (authenticateLambda envScopeM).trace.countP isGrant = 0 :=
  ⟨rfl, rfl, by decide, rfl, rfl, rfl, rfl, rfl⟩

/-- C2 counterexample: the stored record is expired with a refresh token,
the provider rejects the refresh (invalid-grant), the interactive
capability is present and would succeed — yet _authenticate propagates
the refresh failure and never invokes the grant flow. -/
theorem c2_refresh_revoked_propagates_cx :
    (authenticateLocal envRevoked).result = Except.error AuthError.refreshError ∧
    (authenticateLocal envRevoked).trace.countP isGrant = 0 ∧
    (authenticateLocal envRevoked).tokenFile = envRevoked.tokenFile ∧
    envRevoked.credentialsFileExists = true ∧
    envRevoked.grantResult = Except.ok recGranted :=
  ⟨rfl, rfl, rfl, rfl, rfl⟩

/-- C2 (amended): when the refresh flow fails on an expired stored record
that carries a refresh token, the failure propagates out of _authenticate
even in an interactive context; the grant flow is not attempted and
nothing is written. -/
theorem c2_refresh_failure_propagates (env : LocalEnv) (c : TokenRecord)
    (hf : env.tokenFile = some (some c)) (hexp : c.expiry ≤ env.now)
    (hrt : c.refresh_token.isSome = true) (hr : env.refreshResult = Except.error ()) :
    authenticateLocal env =
      { result := Except.error AuthError.refreshError,
        trace := [Ev.fileRead, Ev.refreshCall],
        tokenFile := env.tokenFile } ∧
    (authenticateLocal env).trace.countP isGrant = 0 ∧
    (authenticateLocal env).trace.countP isWrite = 0 := by
  obtain ⟨rt, hrtv⟩ := Option.isSome_iff_exists.mp hrt
  have hlt : ¬ env.now < c.expiry := by omega
  have h1 : authenticateLocal env =
      { result := Except.error AuthError.refreshError,
        trace := [Ev.fileRead, Ev.refreshCall],
        tokenFile := env.tokenFile } := by
    simp [authenticateLocal, loadLocalToken, localLoadTrace, hf, hrtv, hr, hlt]
  exact ⟨h1, by rw [h1]; rfl, by rw [h1]; rfl⟩

/-- Witness for the amended C2 theorem at the revoked-token fixture. -/
theorem c2_refresh_failure_propagates_witness :
    authenticateLocal envRevoked =
      { result := Except.error AuthError.refreshError,
        trace := [Ev.fileRead, Ev.refreshCall],
        tokenFile := envRevoked.tokenFile } ∧
    (authenticateLocal envRevoked).trace.countP isGrant = 0 ∧
    (authenticateLocal envRevoked).trace.countP isWrite = 0 :=
  c2_refresh_failure_propagates envRevoked recExpired rfl (by decide) rfl rfl

/-- C4: on a stored record that is valid (future expiry, scopes
sufficient), acquire performs no refresh, no grant and no store write,
returns the stored record unchanged, leaves the store unchanged, and a
second immediately successive acquire on the resulting state is the very
same computation. -/
theorem c4_valid_acquire_idempotent (env : LocalEnv) (c : TokenRecord)
    (hf : env.tokenFile = some (some c)) (hv : env.now < c.expiry)
    (hs : scopesSufficient c.scope_set SCOPES = true) :
    authenticateLocal env =
      { result := Except.ok c, trace := [Ev.fileRead], tokenFile := env.tokenFile } ∧
    (authenticateLocal env).trace.countP isRefresh = 0 ∧
    (authenticateLocal env).trace.countP isGrant = 0 ∧
    (authenticateLocal env).trace.countP isWrite = 0 ∧
    authenticateLocal { env with tokenFile := (authenticateLocal env).tokenFile } =
      authenticateLocal env := by
  have h1 : authenticateLocal env =
      { result := Except.ok c, trace := [Ev.fileRead], tokenFile := env.tokenFile } := by
    simp [authenticateLocal, loadLocalToken, localLoadTrace, hf, hv]
  refine ⟨h1, by rw [h1]; rfl, by rw [h1]; rfl, by rw [h1]; rfl, ?_⟩
  rw [h1]
  exact h1

/-- Witness for the C4 theorem at the valid-record fixture. -/
theorem c4_valid_acquire_idempotent_witness :
    authenticateLocal envValid =
      { result := Except.ok recValid, trace := [Ev.fileRead], tokenFile := envValid.tokenFile } ∧
    (authenticateLocal envValid).trace.countP isRefresh = 0 ∧
    (authenticateLocal envValid).trace.countP isGrant = 0 ∧
    (authenticateLocal envValid).trace.countP isWrite = 0 ∧
    authenticateLocal { envValid with tokenFile := (authenticateLocal envValid).tokenFile } =
      authenticateLocal envValid :=
  c4_valid_acquire_idempotent envValid recValid rfl (by decide) (by decide)

/-- C5: an expired stored record with a refresh token classifies
Refreshable; acquire invokes the refresh flow exactly once, persists the
new record to the token store before returning, and the resulting stored
record classifies Valid, so the very next acquire returns it with no
further refresh, grant, or write. -/
theorem c5_refreshable_refresh_once_persist (env : LocalEnv) (c nr : TokenRecord)
    (hf : env.tokenFile = some (some c)) (hexp : c.expiry ≤ env.now)
    (hrt : c.refresh_token.isSome = true)
    (hr : env.refreshResult = Except.ok nr) (hnv : env.now < nr.expiry) :
    classifyCode env.now (some c) = Classification.Refreshable ∧
    authenticateLocal env =
      { result := Except.ok nr,
        trace := [Ev.fileRead, Ev.refreshCall, Ev.fileWrite nr],
        tokenFile := some (some nr) } ∧
    (authenticateLocal env).trace.countP isRefresh = 1 ∧
    classifyCode env.now (loadLocalToken (authenticateLocal env).tokenFile) =
      Classification.Valid ∧
    authenticateLocal { env with tokenFile := (authenticateLocal env).tokenFile } =
      { result := Except.ok nr, trace := [Ev.fileRead], tokenFile := some (some nr) } := by
  obtain ⟨rt, hrtv⟩ := Option.isSome_iff_exists.mp hrt
  have hlt : ¬ env.now < c.expiry := by omega
  have h1 : authenticateLocal env =
      { result := Except.ok nr,
        trace := [Ev.fileRead, Ev.refreshCall, Ev.fileWrite nr],
        tokenFile := some (some nr) } := by
    simp [authenticateLocal, loadLocalToken, localLoadTrace, hf, hrtv, hr, hlt]
  have hcl : classifyCode env.now (some c) = Classification.Refreshable := by
    simp [classifyCode, hlt, hrtv]
  refine ⟨hcl, h1, ?_, ?_, ?_⟩
  · rw [h1]; rfl
  · rw [h1]
    simp [classifyCode, loadLocalToken, hnv]
  · rw [h1]
    simp [authenticateLocal, loadLocalToken, localLoadTrace, hnv]

/-- Witness for the C5 theorem at the expired-refreshable fixture. -/
theorem c5_refreshable_refresh_once_persist_witness :
    classifyCode envRefresh.now (some recExpired) = Classification.Refreshable ∧
    authenticateLocal envRefresh =
      { result := Except.ok recNew,
        trace := [Ev.fileRead, Ev.refreshCall, Ev.fileWrite recNew],
        tokenFile := some (some recNew) } ∧
    (authenticateLocal envRefresh).trace.countP isRefresh = 1 ∧
    classifyCode envRefresh.now (loadLocalToken (authenticateLocal envRefresh).tokenFile) =
      Classification.Valid ∧
    authenticateLocal { envRefresh with tokenFile := (authenticateLocal envRefresh).tokenFile } =
      { result := Except.ok recNew, trace := [Ev.fileRead], tokenFile := some (some recNew) } :=
  c5_refreshable_refresh_once_persist envRefresh recExpired recNew rfl (by decide) rfl rfl
    (by decide)

/-- Helper: the load phase of the Lambda variant performs only store
reads, so it contains no event matched by a predicate that is false on
both read events. -/
theorem lambdaLoadTrace_only_reads (env : LambdaEnv) (p : Ev → Bool)
    (h1 : p Ev.remoteRead = false) (h2 : p Ev.fileRead = false) :
    (lambdaLoadTrace env).countP p = 0 := by
  unfold lambdaLoadTrace
  rcases env.parameterStoreTokenName with _ | n <;>
    rcases lambdaRemoteCreds env with _ | c <;>
      rcases env.tokenFile with _ | f <;>
        simp [List.countP_cons, List.countP_append, h1, h2]

/-- Helper: the trace of a Lambda run is its load phase followed by
events none of which is a store read. -/
theorem authenticateLambda_trace_split (env : LambdaEnv) :
    ∃ rest, (authenticateLambda env).trace = lambdaLoadTrace env ++ rest ∧
      rest.countP isRead = 0 := by
  rcases hc : lambdaLoadedCreds env with _ | c
  · exact ⟨[], by simp [authenticateLambda, hc], rfl⟩
  · by_cases hv : env.now < c.expiry
    · exact ⟨[], by simp [authenticateLambda, hc, hv], rfl⟩
    · rcases hrt : c.refresh_token with _ | rt
      · exact ⟨[], by simp [authenticateLambda, hc, hv, hrt], rfl⟩
      · rcases hr : env.refreshResult with u | nr
        · exact ⟨[Ev.refreshCall], by simp [authenticateLambda, hc, hv, hrt, hr], rfl⟩
        · refine ⟨[Ev.refreshCall, Ev.fileWrite nr] ++ (saveTokenToParameterStore env nr).2.1,
            by simp [authenticateLambda, hc, hv, hrt, hr], ?_⟩
          have hs : (saveTokenToParameterStore env nr).2.1.countP isRead = 0 := by
            rcases hn : env.parameterStoreTokenName with _ | n
            · simp [saveTokenToParameterStore, hn]
            · by_cases hsv : env.remoteSaveOk <;>
                simp [saveTokenToParameterStore, hn, hsv, isRead]
          simp [List.countP_append, List.countP_cons, isRead, hs]

/-- C3: in the Lambda (non-interactive) variant, when the loaded record
is absent or unrefreshable, the run raises one of the two explicit
ValueError messages, performs no grant (the module has no grant flow to
call) and no write to the file or the remote store, and leaves both
backends unchanged. -/
theorem c3_lambda_no_grant_no_write (env : LambdaEnv)
    (h : hasUsableOrRefreshable env = false) :
    ((authenticateLambda env).result = Except.error AuthError.lambdaNoCreds ∨
     (authenticateLambda env).result = Except.error AuthError.lambdaTokenExpired) ∧
    (authenticateLambda env).trace = lambdaLoadTrace env ∧
    (authenticateLambda env).trace.countP isGrant = 0 ∧
    (authenticateLambda env).trace.countP isWrite = 0 ∧
    (authenticateLambda env).tokenFile = env.tokenFile ∧
    (authenticateLambda env).remoteStore = env.remoteValue ∧
    errorMessage AuthError.lambdaNoCreds =
      "No valid credentials found. Please run the authentication flow locally first." ∧
    errorMessage AuthError.lambdaTokenExpired =
      "Token is expired and can\x27t be refreshed in Lambda environment. Please generate a new token using the local authentication flow." := by
  unfold hasUsableOrRefreshable at h
  rcases hc : lambdaLoadedCreds env with _ | c
  · have ha : authenticateLambda env =
        { result := Except.error AuthError.lambdaNoCreds, trace := lambdaLoadTrace env,
          tokenFile := env.tokenFile, remoteStore := env.remoteValue } := by
      simp [authenticateLambda, hc]
    rw [ha]
    exact ⟨Or.inl rfl, rfl, lambdaLoadTrace_only_reads env isGrant rfl rfl,
      lambdaLoadTrace_only_reads env isWrite rfl rfl, rfl, rfl, rfl, rfl⟩
  · rw [hc] at h
    change (decide (env.now < c.expiry) || c.refresh_token.isSome) = false at h
    rcases hrt : c.refresh_token with _ | rt
    · rw [hrt] at h
      simp only [Option.isSome_none, Bool.or_false, decide_eq_false_iff_not] at h
      have ha : authenticateLambda env =
          { result := Except.error AuthError.lambdaTokenExpired, trace := lambdaLoadTrace env,
            tokenFile := env.tokenFile, remoteStore := env.remoteValue } := by
        simp [authenticateLambda, hc, h, hrt]
      rw [ha]
      exact ⟨Or.inr rfl, rfl, lambdaLoadTrace_only_reads env isGrant rfl rfl,
        lambdaLoadTrace_only_reads env isWrite rfl rfl, rfl, rfl, rfl, rfl⟩
    · rw [hrt] at h
      simp at h

/-- Witness for the C3 theorem at the empty-store fixture. -/
theorem c3_lambda_no_grant_no_write_witness :
    ((authenticateLambda envEmptyLambda).result = Except.error AuthError.lambdaNoCreds ∨
     (authenticateLambda envEmptyLambda).result = Except.error AuthError.lambdaTokenExpired) ∧
    (authenticateLambda envEmptyLambda).trace = lambdaLoadTrace envEmptyLambda ∧
    (authenticateLambda envEmptyLambda).trace.countP isGrant = 0 ∧
    (authenticateLambda envEmptyLambda).trace.countP isWrite = 0 ∧
    (authenticateLambda envEmptyLambda).tokenFile = envEmptyLambda.tokenFile ∧
    (authenticateLambda envEmptyLambda).remoteStore = envEmptyLambda.remoteValue ∧
    errorMessage AuthError.lambdaNoCreds =
      "No valid credentials found. Please run the authentication flow locally first." ∧
    errorMessage AuthError.lambdaTokenExpired =
      "Token is expired and can\x27t be refreshed in Lambda environment. Please generate a new token using the local authentication flow." :=
  c3_lambda_no_grant_no_write envEmptyLambda rfl

/-- C6: whenever a remote parameter name is configured, the first event
of every Lambda run is the remote-store read, and the local token file is
read only when the remote store yielded no usable record. -/
theorem c6_remote_consulted_first (env : LambdaEnv)
    (hp : env.parameterStoreTokenName.isSome = true) :
    (authenticateLambda env).trace.head? = some Ev.remoteRead ∧
    (Ev.fileRead ∈ (authenticateLambda env).trace → lambdaRemoteCreds env = none) := by
  obtain ⟨n, hn⟩ := Option.isSome_iff_exists.mp hp
  obtain ⟨rest, htr, hnoread⟩ := authenticateLambda_trace_split env
  constructor
  · rw [htr]
    simp [lambdaLoadTrace, hn]
  · intro hmem
    by_contra hne
    rcases hc : lambdaRemoteCreds env with _ | r
    · exact hne hc
    · rw [htr] at hmem
      rcases List.mem_append.mp hmem with h | h
      · rw [lambdaLoadTrace, hn, hc] at h
        simp at h
      · have hnr := List.countP_eq_zero.mp hnoread _ h
        simp [isRead] at hnr

/-- Witness for the C6 theorem: remote store configured but empty, so the
run consults it first and then falls back to the local file. -/
theorem c6_remote_consulted_first_witness :
    (authenticateLambda envRemoteAbsent).trace.head? = some Ev.remoteRead ∧
    lambdaRemoteCreds envRemoteAbsent = none :=
  ⟨(c6_remote_consulted_first envRemoteAbsent rfl).1,
   (c6_remote_consulted_first envRemoteAbsent rfl).2 (by decide)⟩

/-- C7 counterexample: the remote store holds an expired refreshable
record, refresh succeeds, and the remote save fails with a conflict.  The
run succeeds anyway: the only remote read is the initial load (nothing
after the first event is a read), so no re-load after the save failure
ever happens, and the remote store keeps the old record. -/
theorem c7_save_conflict_no_reload_cx :
    (authenticateLambda envConflict).result = Except.ok recNew ∧
    (authenticateLambda envConflict).trace =
      [Ev.remoteRead, Ev.refreshCall, Ev.fileWrite recNew, Ev.remoteWrite recNew] ∧
    Ev.remoteRead ∉ (authenticateLambda envConflict).trace.drop 1 ∧
    (authenticateLambda envConflict).remoteStore = some (some recExpired) ∧
    envConflict.remoteSaveOk = false :=
  ⟨rfl, rfl, by decide, rfl, rfl⟩

/-- C7 (amended): a remote-store save failure is caught, logged and
ignored: the manager performs no re-load after the failed save (the trace
gains no read event beyond the load phase), acquire succeeds with the
in-memory refreshed record, and the remote store keeps its old value. -/
theorem c7_save_failure_ignored (env : LambdaEnv) (c nr : TokenRecord)
    (hc : lambdaRemoteCreds env = some c) (hexp : c.expiry ≤ env.now)
    (hrt : c.refresh_token.isSome = true) (hr : env.refreshResult = Except.ok nr)
    (hsv : env.remoteSaveOk = false) :
    (authenticateLambda env).result = Except.ok nr ∧
    (authenticateLambda env).trace =
      lambdaLoadTrace env ++ [Ev.refreshCall, Ev.fileWrite nr, Ev.remoteWrite nr] ∧
    (authenticateLambda env).trace.countP isRead = (lambdaLoadTrace env).countP isRead ∧
    (authenticateLambda env).remoteStore = env.remoteValue ∧
    (authenticateLambda env).tokenFile = some (some nr) := by
  have hex : ∃ n, env.parameterStoreTokenName = some n := by
    rcases h : env.parameterStoreTokenName with _ | n
    · rw [lambdaRemoteCreds, h] at hc
      exact absurd hc (by simp)
    · exact ⟨n, rfl⟩
  obtain ⟨n, hn⟩ := hex
  obtain ⟨rt, hrtv⟩ := Option.isSome_iff_exists.mp hrt
  have hlt : ¬ env.now < c.expiry := by omega
  have hload : lambdaLoadedCreds env = some c := by simp [lambdaLoadedCreds, hc]
  have hsave : saveTokenToParameterStore env nr = (false, [Ev.remoteWrite nr], env.remoteValue) := by
    simp [saveTokenToParameterStore, hn, hsv]
  have ha : authenticateLambda env =
      { result := Except.ok nr,
        trace := lambdaLoadTrace env ++ [Ev.refreshCall, Ev.fileWrite nr, Ev.remoteWrite nr],
        tokenFile := some (some nr), remoteStore := env.remoteValue } := by
    simp [authenticateLambda, hload, hlt, hrtv, hr, hsave]
  rw [ha]
  refine ⟨rfl, rfl, ?_, rfl, rfl⟩
  simp [List.countP_append, List.countP_cons, isRead]

/-- Witness for the amended C7 theorem at the save-conflict fixture. -/
theorem c7_save_failure_ignored_witness :
    (authenticateLambda envConflict).result = Except.ok recNew ∧
    (authenticateLambda envConflict).trace =
      lambdaLoadTrace envConflict ++ [Ev.refreshCall, Ev.fileWrite recNew, Ev.remoteWrite recNew] ∧
    (authenticateLambda envConflict).trace.countP isRead =
      (lambdaLoadTrace envConflict).countP isRead ∧
    (authenticateLambda envConflict).remoteStore = envConflict.remoteValue ∧
    (authenticateLambda envConflict).tokenFile = some (some recNew) :=
  c7_save_failure_ignored envConflict recExpired recNew rfl (by decide) rfl rfl rfl

/-- C8 counterexample: the script variant authenticate_google_calendar
loads the token file with no try/except, so on a malformed file the parse
exception propagates: nothing is re-acquired even though credentials.json
exists and the grant would succeed. -/
theorem c8_script_malformed_raises_cx :
    (authenticateScript envMalformed).result = Except.error AuthError.tokenParseError ∧
    (authenticateScript envMalformed).trace.countP isGrant = 0 ∧
    (authenticateScript envMalformed).trace.countP isRefresh = 0 ∧
    envMalformed.tokenFile = some none ∧
    envMalformed.credentialsFileExists = true :=
  ⟨rfl, rfl, rfl, rfl, rfl⟩

/-- C8 (amended): in the class-based variants (GoogleCalendarAPI and
LambdaGoogleCalendarAPI) a malformed token file is caught, logged, and
treated as absent — the local variant proceeds to the interactive grant
and the Lambda variant reports missing credentials instead of a parse
error — while in the script variant authenticate_google_calendar the
parse exception propagates. -/
theorem c8_malformed_treated_absent (env : LocalEnv) (lenv : LambdaEnv) (g : TokenRecord)
    (hm : env.tokenFile = some none) (hcred : env.credentialsFileExists = true)
    (hg : env.grantResult = Except.ok g)
    (hlm : lenv.tokenFile = some none) (hlr : lambdaRemoteCreds lenv = none) :
    authenticateLocal env =
      { result := Except.ok g,
        trace := [Ev.fileRead, Ev.grantCall, Ev.fileWrite g],
        tokenFile := some (some g) } ∧
    (authenticateScript env).result = Except.error AuthError.tokenParseError ∧
    (authenticateLambda lenv).result = Except.error AuthError.lambdaNoCreds := by
  refine ⟨?_, ?_, ?_⟩
  · simp [authenticateLocal, loadLocalToken, localLoadTrace, hm, grantPath, hcred, hg]
  · simp [authenticateScript, hm]
  · have hl : lambdaLoadedCreds lenv = none := by simp [lambdaLoadedCreds, hlr, hlm]
    simp [authenticateLambda, hl]

/-- Witness for the amended C8 theorem at the malformed-file fixtures. -/
theorem c8_malformed_treated_absent_witness :
    authenticateLocal envMalformed =
      { result := Except.ok recGranted,
        trace := [Ev.fileRead, Ev.grantCall, Ev.fileWrite recGranted],
        tokenFile := some (some recGranted) } ∧
    (authenticateScript envMalformed).result = Except.error AuthError.tokenParseError ∧
    (authenticateLambda lenvMalformed).result = Except.error AuthError.lambdaNoCreds :=
  c8_malformed_treated_absent envMalformed lenvMalformed recGranted rfl rfl rfl rfl rfl

/-- C9: lambda_handler returns a response for every invocation — the
status code is always 200, 400 or 500 — and whenever processing raises
internally the response is a 500 whose body carries the message; no
exception escapes to the caller (the embedding is a total function). -/
theorem c9_handler_total_status (env : HandlerEnv) :
    ((lambda_handler env).statusCode = 200 ∨ (lambda_handler env).statusCode = 400 ∨
     (lambda_handler env).statusCode = 500) ∧
    ((handlerRaised env).isSome = true →
      lambda_handler env =
        { statusCode := 500, body := errorBody ((handlerRaised env).getD "") }) := by
  unfold lambda_handler handlerRaised
  rcases hq : parseDays env.query with m | d
  · exact ⟨Or.inr (Or.inr rfl), fun _ => rfl⟩
  · by_cases hcfg : credsConfigured env.googleCredentialsJson = true
    · rcases hp : env.pipeline with m | a
      · simp [hcfg]
      · simp [hcfg]
    · simp [hcfg]

/-- Witness for the C9 theorem: a null queryStringParameters member makes
the source raise AttributeError inside the try block, which becomes a 500
response carrying the message. -/
theorem c9_handler_total_status_witness :
    lambda_handler envHandlerErr =
      { statusCode := 500,
        body := errorBody "AttributeError: NoneType object has no attribute get" } :=
  (c9_handler_total_status envHandlerErr).2 rfl

/-- Helper: the loop body of format_events does not raise on a
well-formed event. -/
theorem formatOne_isSome (ev : GEvent) (h : evWellFormed ev = true) :
    (formatOne ev).isSome = true := by
  unfold evWellFormed at h
  simp only [Bool.and_eq_true] at h
  obtain ⟨⟨h1, h2⟩, h3⟩ := h
  by_cases had : isAllDay ev = true
  · have hadc := had
    unfold isAllDay at hadc
    simp only [Bool.and_eq_true] at hadc
    obtain ⟨hds, hdn⟩ := hadc
    obtain ⟨sd, hsd⟩ := Option.isSome_iff_exists.mp hds
    have hdt : ev.start.dateTime = none := by
      rcases hx : ev.start.dateTime with _ | t
      · rfl
      · rw [hx] at hdn; simp at hdn
    rw [had] at h3
    simp only [Bool.not_true, Bool.false_or, Bool.and_eq_true] at h3
    obtain ⟨h4, h5⟩ := h3
    have hedt : ev.endTime.dateTime = none := by
      rcases hx : ev.endTime.dateTime with _ | t
      · rfl
      · rw [hx] at h4; simp at h4
    obtain ⟨ed, hed⟩ := Option.isSome_iff_exists.mp h5
    simp [formatOne, sel, hdt, hsd, hedt, hed, had]
  · obtain ⟨s, hs⟩ := Option.isSome_iff_exists.mp h1
    obtain ⟨e, he⟩ := Option.isSome_iff_exists.mp h2
    simp [formatOne, hs, he, had]

/-- Helper: on a well-formed event the loop body returns exactly the
total formatter value. -/
theorem formatOne_wf (ev : GEvent) (h : evWellFormed ev = true) :
    formatOne ev = some (fmtTotal ev) := by
  have hi := formatOne_isSome ev h
  rcases hx : formatOne ev with _ | f
  · rw [hx] at hi; simp at hi
  · simp [fmtTotal, hx]

/-- Helper: on a list of well-formed events format_events succeeds and
returns the order-preserving map of the total formatter. -/
theorem format_events_wf (evs : List GEvent) (h : evs.all evWellFormed = true) :
    format_events evs = some (evs.map fmtTotal) := by
  induction evs with
  | nil => rfl
  | cons a t ih =>
    simp only [List.all_cons, Bool.and_eq_true] at h
    simp [format_events, formatOne_wf a h.1, ih h.2]

/-- C10: on well-formed events format_events returns exactly one record
per input event, in order, and on an all-day event the formatted record
has is_all_day true and an end date exactly one day earlier than the raw
provider end date. -/
theorem c10_format_events_shape (evs : List GEvent) (ev : GEvent) (ed : Int)
    (hwf : evs.all evWellFormed = true) (hwfe : evWellFormed ev = true)
    (had : isAllDay ev = true) (hed : ev.endTime.date = some ed) :
    format_events evs = some (evs.map fmtTotal) ∧
    (evs.map fmtTotal).length = evs.length ∧
    (fmtTotal ev).is_all_day = true ∧
    (fmtTotal ev).endTime = TimeVal.d (ed - 1) := by
  have hadc := had
  unfold isAllDay at hadc
  simp only [Bool.and_eq_true] at hadc
  obtain ⟨hds, hdn⟩ := hadc
  obtain ⟨sd, hsd⟩ := Option.isSome_iff_exists.mp hds
  have hdt : ev.start.dateTime = none := by
    rcases hx : ev.start.dateTime with _ | t
    · rfl
    · rw [hx] at hdn; simp at hdn
  have hedt : ev.endTime.dateTime = none := by
    rcases hx : ev.endTime.dateTime with _ | t
    · rfl
    · exfalso
      unfold evWellFormed at hwfe
      rw [had, hx] at hwfe
      simp at hwfe
  have hf : formatOne ev =
      some { id := ev.id, summary := ev.summary.getD "No Title",
             start := TimeVal.d sd, endTime := TimeVal.d (ed - 1), is_all_day := true } := by
    simp [formatOne, sel, hdt, hsd, hedt, hed, had]
  have hft : fmtTotal ev =
      { id := ev.id, summary := ev.summary.getD "No Title",
        start := TimeVal.d sd, endTime := TimeVal.d (ed - 1), is_all_day := true } := by
    rw [fmtTotal, hf]
    rfl
  exact ⟨format_events_wf evs hwf, by simp, by rw [hft], by rw [hft]⟩

/-- Witness for the C10 theorem on a two-event list holding an all-day
event and a timed event. -/
theorem c10_format_events_shape_witness :
    format_events [evAllDay, evTimed] = some ([evAllDay, evTimed].map fmtTotal) ∧
    ([evAllDay, evTimed].map fmtTotal).length = [evAllDay, evTimed].length ∧
    (fmtTotal evAllDay).is_all_day = true ∧
    (fmtTotal evAllDay).endTime = TimeVal.d (102 - 1) :=
  c10_format_events_shape [evAllDay, evTimed] evAllDay 102 (by decide) (by decide) (by decide)
    rfl

end GCal
